import Mathlib

/-!
Shallow embedding of `src/index.ts` of 8lueberry/callandcache: an HTTP
forward-fetch proxy with a persistent filesystem cache-aside layer.

The embedding models:
* the SHA-1 digest used by `RequestInfo.hash` (std `Sha1`), over `Nat`;
* JavaScript runtime values (`Js`, including `undefined`) as produced by
  `JSON.parse` and consumed by property access;
* the filesystem as a map from paths to entries (absent / file / a
  permission-denied entry whose read raises a non-NotFound error);
* a text file's content either as the JSON value it parses to, or as raw
  unparseable bytes (on which `JSON.parse` raises a SyntaxError);
* the classes `RequestInfo`, `ResponseInfo`, `Cache`, the decorator
  `CachableRequest` and the request loop of `Server.serveHttp`.
-/

namespace Callandcache

set_option maxRecDepth 1000000

/-- Rotate a 32-bit word (a `Nat` below `2 ^ 32`) left by `k` bits. -/
def rotl32 (x k : Nat) : Nat :=
  ((x <<< k) % 4294967296) ||| (x >>> (32 - k))

/-- The SHA-1 round function for round `i`. -/
def sha1F (i b c d : Nat) : Nat :=
  if i < 20 then (b &&& c) ||| ((b ^^^ 4294967295) &&& d)
  else if i < 40 then b ^^^ c ^^^ d
  else if i < 60 then (b &&& c) ||| (b &&& d) ||| (c &&& d)
  else b ^^^ c ^^^ d

/-- The SHA-1 round constant for round `i`. -/
def sha1K (i : Nat) : Nat :=
  if i < 20 then 0x5A827999
  else if i < 40 then 0x6ED9EBA1
  else if i < 60 then 0x8F1BBCDC
  else 0xCA62C1D6

/-- Expand a 16-word block into the 80-word message schedule. -/
def sha1Schedule (block : List Nat) : List Nat :=
  (List.range 80).foldl
    (fun acc i =>
      if i < 16 then acc ++ [block.getD i 0]
      else acc ++ [rotl32 ((acc.getD (i - 3) 0) ^^^ (acc.getD (i - 8) 0) ^^^
        (acc.getD (i - 14) 0) ^^^ (acc.getD (i - 16) 0)) 1])
    []

/-- One SHA-1 compression step over a 16-word block. -/
def sha1Compress (h : Nat × Nat × Nat × Nat × Nat) (block : List Nat) :
    Nat × Nat × Nat × Nat × Nat :=
  let w := sha1Schedule block
  let r := (List.range 80).foldl
    (fun st i =>
      let temp := (rotl32 st.1 5 + sha1F i st.2.1 st.2.2.1 st.2.2.2.1 + st.2.2.2.2 +
        sha1K i + w.getD i 0) % 4294967296
      (temp, st.1, rotl32 st.2.1 30, st.2.2.1, st.2.2.2.1))
    h
  (((h.1 + r.1) % 4294967296), ((h.2.1 + r.2.1) % 4294967296),
   ((h.2.2.1 + r.2.2.1) % 4294967296), ((h.2.2.2.1 + r.2.2.2.1) % 4294967296),
   ((h.2.2.2.2 + r.2.2.2.2) % 4294967296))

/-- UTF-8 encoding of a single character, as its list of bytes. -/
def utf8Char (c : Char) : List Nat :=
  let n := c.toNat
  if n < 128 then [n]
  else if n < 2048 then [192 + n / 64, 128 + n % 64]
  else if n < 65536 then [224 + n / 4096, 128 + (n / 64) % 64, 128 + n % 64]
  else [240 + n / 262144, 128 + (n / 4096) % 64, 128 + (n / 64) % 64, 128 + n % 64]

/-- UTF-8 encoding of a string, as its list of bytes. -/
def utf8Bytes (s : String) : List Nat :=
  (s.data.map utf8Char).flatten

/-- SHA-1 message padding: append `0x80`, zero bytes up to 56 mod 64, and the
big-endian 64-bit bit length. -/
def sha1Pad (msg : List Nat) : List Nat :=
  let bitLen := msg.length * 8
  let z := (119 - msg.length % 64) % 64
  msg ++ [128] ++ List.replicate z 0 ++
    [(bitLen >>> 56) % 256, (bitLen >>> 48) % 256, (bitLen >>> 40) % 256,
     (bitLen >>> 32) % 256, (bitLen >>> 24) % 256, (bitLen >>> 16) % 256,
     (bitLen >>> 8) % 256, bitLen % 256]

/-- Pack a list of bytes into big-endian 32-bit words. -/
def bytesToWords : List Nat → List Nat
  | a :: b :: c :: d :: rest => (((a * 256 + b) * 256 + c) * 256 + d) :: bytesToWords rest
  | _ => []

/-- Fold the SHA-1 compression over `n` consecutive 16-word blocks. -/
def sha1Blocks (h : Nat × Nat × Nat × Nat × Nat) (ws : List Nat) :
    Nat → Nat × Nat × Nat × Nat × Nat
  | 0 => h
  | n + 1 => sha1Blocks (sha1Compress h (ws.take 16)) (ws.drop 16) n

/-- Hexadecimal digit character for `n < 16` (lowercase, as `Sha1.hex()`). -/
def hexDigit (n : Nat) : Char :=
  if n < 10 then Char.ofNat (48 + n) else Char.ofNat (87 + n)

/-- Lowercase hexadecimal rendering of a 32-bit word, eight digits. -/
def wordHex (w : Nat) : String :=
  String.mk [hexDigit ((w >>> 28) % 16), hexDigit ((w >>> 24) % 16),
    hexDigit ((w >>> 20) % 16), hexDigit ((w >>> 16) % 16),
    hexDigit ((w >>> 12) % 16), hexDigit ((w >>> 8) % 16),
    hexDigit ((w >>> 4) % 16), hexDigit (w % 16)]

/-- SHA-1 of the UTF-8 bytes of a string, as a 40-character lowercase hex
digest: the model of `new Sha1().update(s).hex()` from `std/hash/sha1`. -/
def sha1Hex (s : String) : String :=
  let ws := bytesToWords (sha1Pad (utf8Bytes s))
  let r := sha1Blocks (0x67452301, 0xEFCDAB89, 0x98BADCFE, 0x10325476, 0xC3D2E1F0)
    ws (ws.length / 16)
  wordHex r.1 ++ wordHex r.2.1 ++ wordHex r.2.2.1 ++ wordHex r.2.2.2.1 ++
    wordHex r.2.2.2.2

/-- Standard test vector pinning the digest model to real SHA-1. -/
theorem sha1Hex_abc : sha1Hex "abc" = "a9993e364706816aba3e25717850c26c9cd0d89d" := by
  decide

/-- JavaScript runtime values, as produced by `JSON.parse` and passed around
untyped (`any`). `undefined` is a first-class value here because missing
object properties read as `undefined`. -/
inductive Js where
  | undefined : Js
  | null : Js
  | bool (b : Bool) : Js
  | num (n : Int) : Js
  | str (s : String) : Js
  | arr (elems : List Js) : Js
  | obj (fields : List (String × Js)) : Js

/-- Whether a value is `undefined`. -/
def Js.isUndef : Js → Bool
  | .undefined => true
  | _ => false

/-- First field of an object's field list with the given key. Field lists we
build or parse have distinct keys, so this is plain JS property lookup. -/
def lookupField : List (String × Js) → String → Option Js
  | [], _ => none
  | (k, v) :: rest, key => if k = key then some v else lookupField rest key

/-- A thrown JS error that the cache layer does not create itself. -/
inductive JsError where
  | typeError : JsError

/-- JS property access `v[key]`: throws `TypeError` on `undefined` and `null`,
yields the field on objects, and `undefined` on every other value (these
names are not built-in properties of primitives or arrays). -/
def jsGetProp : Js → String → Except JsError Js
  | .undefined, _ => .error .typeError
  | .null, _ => .error .typeError
  | .obj fields, key =>
      .ok (match lookupField fields key with
        | some v => v
        | none => .undefined)
  | _, _ => .ok .undefined

/-- Total variant of property access, meaningful when `jsGetProp` succeeds. -/
def jsProp (v : Js) (key : String) : Js :=
  match jsGetProp v key with
  | .ok w => w
  | .error _ => .undefined

mutual

/-- The `JSON.stringify`-then-`JSON.parse` normalisation of a value: object
fields bound to `undefined` are dropped, `undefined` array elements become
`null`, everything else round-trips to itself. -/
def stringifyNorm : Js → Js
  | .obj fields => .obj (normFields fields)
  | .arr elems => .arr (normElems elems)
  | .undefined => .null
  | v => v

def normFields : List (String × Js) → List (String × Js)
  | [] => []
  | (k, v) :: rest =>
      if v.isUndef then normFields rest else (k, stringifyNorm v) :: normFields rest

def normElems : List Js → List Js
  | [] => []
  | v :: rest => stringifyNorm v :: normElems rest

end

/-- One JSON-escaped character, per `JSON.stringify` string quoting. -/
def escapeChar (c : Char) : String :=
  if c = '"' then "\\\""
  else if c = '\\' then "\\\\"
  else if c = '\n' then "\\n"
  else if c = '\r' then "\\r"
  else if c = '\t' then "\\t"
  else if c.toNat = 8 then "\\b"
  else if c.toNat = 12 then "\\f"
  else if c.toNat < 32 then
    "\\u00" ++ String.mk [hexDigit (c.toNat / 16), hexDigit (c.toNat % 16)]
  else String.singleton c

/-- JSON escaping of the characters of a string. -/
def jsonEscape (s : String) : String :=
  String.join (s.data.map escapeChar)

/-- A JSON string literal: quotes around the escaped content. -/
def jsonQuote (s : String) : String :=
  "\"" ++ jsonEscape s ++ "\""

/-- The relevant part of the WHATWG `URL` object: its serialisation
(`toString()`) and its `host`. -/
structure URL where
  href : String
  host : String

/-- The record-building loop `headers[k] = v` over iterated pairs: a later
write to an existing key overwrites in place, a new key is appended. -/
def recordInsert (r : List (String × Js)) (k : String) (v : Js) :
    List (String × Js) :=
  if r.any (fun p => p.1 == k) then
    r.map (fun p => if p.1 == k then (k, v) else p)
  else r ++ [(k, v)]

/-- Fold a list of string pairs into a JS record object field list. -/
def recordOfPairs (pairs : List (String × String)) : List (String × Js) :=
  pairs.foldl (fun acc p => recordInsert acc p.1 (.str p.2)) []

/-- `class RequestInfo`: url, method, headers (as iterated key/value pairs)
and body text. -/
structure RequestInfo where
  url : URL
  method : String
  headers : List (String × String)
  body : String

/-- `RequestInfo.toJSON()`: headers collapsed to a record, url serialised. -/
def RequestInfo.toJSON (r : RequestInfo) : Js :=
  .obj [("url", .str r.url.href), ("method", .str r.method),
    ("headers", .obj (recordOfPairs r.headers)), ("body", .str r.body)]

/-- The `JSON.stringify(payload)` text hashed by `RequestInfo.hash()`, after
`payload.headers = \x7b\x7d`: key order is insertion order of `toJSON`, and
the headers slot is the empty object. -/
def RequestInfo.hashInput (r : RequestInfo) : String :=
  "\x7b\"url\":" ++ jsonQuote r.url.href ++ ",\"method\":" ++ jsonQuote r.method ++
    ",\"headers\":\x7b\x7d,\"body\":" ++ jsonQuote r.body ++ "\x7d"

/-- `RequestInfo.hash()`: SHA-1 hex digest of the headerless payload. -/
def RequestInfo.hash (r : RequestInfo) : String :=
  sha1Hex r.hashInput

/-- `RequestInfo.fromRequest`: the inbound request's method, headers and body
text together with the already-parsed target URL. -/
structure InboundRequest where
  params : List (String × String)
  method : String
  headers : List (String × String)
  body : String

/-- Build a `RequestInfo` from an inbound request and the target URL. -/
def RequestInfo.fromRequest (req : InboundRequest) (url : URL) : RequestInfo :=
  ⟨url, req.method, req.headers, req.body⟩

/-- A live transport response as seen by `ResponseInfo.fromResponse`: its
status, iterated headers, and the text the body would yield. -/
structure TransportResponse where
  status : Int
  headers : List (String × String)
  text : String

/-- `class ResponseInfo`: runtime field values. Instances built by
`fromResponse` carry a number, a record and a string, while `fromJSON`
copies whatever property access produced, so the fields are `Js`. -/
structure ResponseInfo where
  status : Js
  headers : Js
  data : Js

/-- `ResponseInfo.fromResponse`: captures the status, the headers record, and
the body text only when the status is 200 (otherwise the empty string). -/
def ResponseInfo.fromResponse (res : TransportResponse) : ResponseInfo :=
  let isSucc := res.status == 200
  let data := if isSucc then res.text else ""
  let headers := recordOfPairs res.headers
  ⟨.num res.status, .obj headers, .str data⟩

/-- `ResponseInfo.isSuccessful`: the strict comparison `this.status === 200`. -/
def ResponseInfo.isSuccessful (r : ResponseInfo) : Bool :=
  match r.status with
  | .num n => n == 200
  | _ => false

/-- `ResponseInfo.toJSON()`. -/
def ResponseInfo.toJSON (r : ResponseInfo) : Js :=
  .obj [("status", r.status), ("headers", r.headers), ("data", r.data)]

/-- Errors escaping the cache layer's operations. -/
inductive CacheError where
  | notFound : CacheError
  | permissionDenied : CacheError
  | syntaxError : CacheError
  | typeError : CacheError
  | deserialize : CacheError

/-- `ResponseInfo.fromJSON`: `new ResponseInfo(json.status, json.headers,
json.data)` inside `try`, rethrown as `errors.Deserialize` on any throw.
Only the three property accesses can throw, and they throw together (all on
`undefined`/`null` input), so the `try` body is their joint success. -/
def ResponseInfo.fromJSON (json : Js) : Except CacheError ResponseInfo :=
  match jsGetProp json "status", jsGetProp json "headers", jsGetProp json "data" with
  | .ok st, .ok hd, .ok da => .ok (ResponseInfo.mk st hd da)
  | _, _, _ => .error .deserialize

/-- The content of an existing text file, classified by `JSON.parse`: either
well-formed JSON text (kept as the value it parses to) or raw bytes on which
`JSON.parse` raises a `SyntaxError`. -/
inductive FileData where
  | jsonText (v : Js) : FileData
  | raw (s : String) : FileData

/-- A filesystem entry: missing, readable with some content, or one whose
read raises a non-`NotFound` I/O error such as `PermissionDenied`. Writes in
this development always succeed, since no claim concerns write failures. -/
inductive FileEntry where
  | absent : FileEntry
  | file (d : FileData) : FileEntry
  | denied : FileEntry

/-- The filesystem: a total map from paths to entries. -/
def FS := String → FileEntry

/-- Errors raised by `Deno.readTextFile`. -/
inductive FsError where
  | notFound : FsError
  | permissionDenied : FsError

/-- `Deno.readTextFile`. -/
def readTextFile (fs : FS) (p : String) : Except FsError FileData :=
  match fs p with
  | .absent => .error .notFound
  | .denied => .error .permissionDenied
  | .file d => .ok d

/-- `ensureFile` followed by `Deno.writeTextFile`: create or overwrite. -/
def fsWrite (fs : FS) (p : String) (d : FileData) : FS :=
  fun q => if q = p then .file d else fs q

/-- The world state threaded through the cache layer: the filesystem, the
console log, and the clock read by `Date.now()`. -/
structure World where
  fs : FS
  log : List String
  now : Int

/-- The fixed relative cache root directory of `Cache.buildFilepath`. -/
def cacheRoot : String := "./tmp/cache"

/-- `path.join` over the three segments it receives at its single call site
(Deno's `join` additionally normalises a leading `./` away; that renaming is
applied identically by `set` and `get` and is irrelevant to every claim). -/
def pathJoin (a b c : String) : String :=
  a ++ "/" ++ b ++ "/" ++ c

/-- The console line logged by `Cache.set` when skipping a failed response. -/
def skipMsg : String := "Skip cache response because the call was not successful"

/-- The console line logged by `Cache.set` after writing an entry. -/
def cachedMsg (filepath : String) : String := "Cached " ++ filepath

/-- `Cache.buildFilepath`: cache root, then the request URL's host, then the
request fingerprint with a `.json` extension. -/
def Cache.buildFilepath (req : RequestInfo) : String :=
  pathJoin cacheRoot req.url.host (req.hash ++ ".json")

/-- `Cache.set`: skip (with a log line) unless the response is successful;
otherwise write the timestamped `CachedItem` JSON at the built path. -/
def Cache.set (req : RequestInfo) (res : ResponseInfo) (s : World) : World :=
  if !res.isSuccessful then
    { s with log := s.log ++ [skipMsg] }
  else
    let filepath := Cache.buildFilepath req
    let item : Js := .obj [("date", .num s.now), ("req", req.toJSON),
      ("res", res.toJSON)]
    { s with
      fs := fsWrite s.fs filepath (.jsonText (stringifyNorm item)),
      log := s.log ++ [cachedMsg filepath] }

/-- `Cache.get`: read the file at the built path, `JSON.parse` it, take its
`res` property, and `ResponseInfo.fromJSON` that; `NotFound` and
`Deserialize` are caught and become `undefined`, everything else rethrows. -/
def Cache.get (req : RequestInfo) (s : World) :
    Except CacheError (Option ResponseInfo) × World :=
  let filepath := Cache.buildFilepath req
  match readTextFile s.fs filepath with
  | .error .notFound => (.ok none, s)
  | .error .permissionDenied => (.error .permissionDenied, s)
  | .ok (.raw _) => (.error .syntaxError, s)
  | .ok (.jsonText v) =>
    match jsGetProp v "res" with
    | .error _ => (.error .typeError, s)
    | .ok resField =>
      match ResponseInfo.fromJSON resField with
      | .error _ => (.ok none, s)
      | .ok data => (.ok (some data), s)

/-- The hit line logged by the `CachableRequest` wrapper. -/
def hitMsg (req : RequestInfo) : String :=
  "Cache hit " ++ req.method ++ " " ++ req.url.href

/-- The miss line logged by the `CachableRequest` wrapper. -/
def missMsg (req : RequestInfo) : String :=
  "Cache miss " ++ req.method ++ " " ++ req.url.href

/-- The `CachableRequest()` decorator applied to an origin fetch operation:
consult the cache, return a hit immediately, otherwise invoke the wrapped
fetch once, store its result, and return it. The final component counts the
invocations of the wrapped operation. -/
def CachableRequest (originFetch : RequestInfo → ResponseInfo)
    (req : RequestInfo) (s : World) :
    Except CacheError ResponseInfo × World × Nat :=
  match Cache.get req s with
  | (.error e, s₁) => (.error e, s₁, 0)
  | (.ok (some fromCache), s₁) =>
      (.ok fromCache, { s₁ with log := s₁.log ++ [hitMsg req] }, 0)
  | (.ok none, s₁) =>
      let s₂ := { s₁ with log := s₁.log ++ [missMsg req] }
      let fromFetch := originFetch req
      let s₃ := Cache.set req fromFetch s₂
      (.ok fromFetch, s₃, 1)

/-- A response written back to the proxy client by `respondWith`. -/
structure HttpOut where
  body : Js
  status : Js
  headers : Option Js

/-- `Server.serveHttp`'s request-event loop over one connection. Each event
either lacks a truthy target-URL parameter `u` (a 404 empty response is sent
and the loop returns, dropping the remaining events), or is proxied through
the cached fetcher. An error escaping the fetcher aborts the loop with no
response for that event. Components: the responses sent, the escaped error
if any, the final world, and the total origin-fetch invocation count. -/
def serveHttp (parseU : String → URL) (originFetch : RequestInfo → ResponseInfo) :
    List InboundRequest → World →
      (List HttpOut × Option CacheError) × World × Nat
  | [], s => (([], none), s, 0)
  | e :: rest, s =>
    match List.lookup "u" e.params with
    | none => (([⟨.str "", .num 404, none⟩], none), s, 0)
    | some u =>
      if u = "" then (([⟨.str "", .num 404, none⟩], none), s, 0)
      else
        let req := RequestInfo.fromRequest e (parseU u)
        match CachableRequest originFetch req s with
        | (.error err, s₁, n) => (([], some err), s₁, n)
        | (.ok res, s₁, n) =>
          let out : HttpOut := ⟨res.data, res.status, some res.headers⟩
          match serveHttp parseU originFetch rest s₁ with
          | ((outs, err), s₂, m) => ((out :: outs, err), s₂, n + m)

/-! Concrete sample values used by witnesses. -/

/-- A sample target URL. -/
def sampleURL : URL := ⟨"http://example.com/a", "example.com"⟩

/-- A sample request with no headers. -/
def sampleReq : RequestInfo := ⟨sampleURL, "GET", [], ""⟩

/-- The same request with a user-agent header added. -/
def sampleReqUA : RequestInfo := ⟨sampleURL, "GET", [("user-agent", "curl")], ""⟩

/-- A successful response descriptor. -/
def ok200 : ResponseInfo :=
  ⟨.num 200, .obj [("content-type", .str "text/plain")], .str "hello"⟩

/-- A failed (status 500) response descriptor. -/
def err500 : ResponseInfo := ⟨.num 500, .obj [], .str ""⟩

/-- A world with an empty filesystem. -/
def emptyWorld : World := ⟨fun _ => .absent, [], 0⟩

/-- A stored cache record holding `ok200`-like data under `res`. -/
def hitItem : Js :=
  .obj [("date", .num 0), ("req", .null),
    ("res", .obj [("status", .num 200), ("headers", .obj []), ("data", .str "hello")])]

/-- The response descriptor that `hitItem`'s `res` field deserialises to. -/
def hitRes : ResponseInfo := ⟨.num 200, .obj [], .str "hello"⟩

/-- A world whose every path holds the valid record `hitItem`. -/
def hitWorld : World := ⟨fun _ => .file (.jsonText hitItem), [], 0⟩

/-- A world whose every path holds unparseable non-JSON bytes. -/
def rawWorld : World := ⟨fun _ => .file (.raw "garbage bytes"), [], 0⟩

/-- A world whose every path raises `PermissionDenied` on read. -/
def deniedWorld : World := ⟨fun _ => .denied, [], 0⟩

/-- A world whose every path holds well-formed JSON with no `res` field. -/
def noResWorld : World := ⟨fun _ => .file (.jsonText (.obj [("date", .num 0)])), [], 0⟩

/-! The claims. -/

/-- C3: the fingerprint `RequestInfo.hash` is determined by the
(URL, method, body) triple alone — two requests with equal URL, method and
body hash identically, whatever their headers are. -/
theorem c3_hash_determined_by_triple (r1 r2 : RequestInfo)
    (hu : r1.url = r2.url) (hm : r1.method = r2.method) (hb : r1.body = r2.body) :
    r1.hash = r2.hash := by
  unfold RequestInfo.hash RequestInfo.hashInput
  rw [hu, hm, hb]

/-- C3 witness: the sample request with and without a user-agent header. -/
theorem c3_hash_witness : sampleReqUA.hash = sampleReq.hash :=
  c3_hash_determined_by_triple sampleReqUA sampleReq rfl rfl rfl

/-- C10: `Cache.get` is read-only — it returns the world it was given, with
the filesystem (and log and clock) untouched, in every branch including the
error-propagating ones. -/
theorem c10_get_read_only (req : RequestInfo) (s : World) :
    (Cache.get req s).2 = s := by
  unfold Cache.get
  dsimp only
  repeat' split
  all_goals rfl

/-- C6: `ResponseInfo.fromResponse` captures the body text only for status
200, yields an empty body otherwise, and its `isSuccessful` is true exactly
for status 200. -/
theorem c6_fromResponse_body_policy (res : TransportResponse) :
    (res.status ≠ 200 → (ResponseInfo.fromResponse res).data = .str "")
    ∧ (res.status = 200 → (ResponseInfo.fromResponse res).data = .str res.text)
    ∧ ((ResponseInfo.fromResponse res).isSuccessful = true ↔ res.status = 200) := by
  refine ⟨fun h => ?_, fun h => ?_, ?_⟩
  · simp [ResponseInfo.fromResponse, h]
  · simp [ResponseInfo.fromResponse, h]
  · simp [ResponseInfo.fromResponse, ResponseInfo.isSuccessful]

/-- C6 witness: a 500 response captures an empty body, a 200 response
captures its text. -/
theorem c6_fromResponse_witness :
    (ResponseInfo.fromResponse ⟨500, [], "oops"⟩).data = .str ""
    ∧ (ResponseInfo.fromResponse ⟨200, [], "hello"⟩).data = .str "hello" :=
  ⟨(c6_fromResponse_body_policy ⟨500, [], "oops"⟩).1 (by decide),
   (c6_fromResponse_body_policy ⟨200, [], "hello"⟩).2.1 rfl⟩

/-- C4: `Cache.set` on an unsuccessful response leaves the filesystem
untouched and only logs the skip line; conversely any path whose entry `set`
changed proves the response was successful. -/
theorem c4_set_skips_failures (req : RequestInfo) (res : ResponseInfo) (s : World) :
    (res.isSuccessful = false →
      (Cache.set req res s).fs = s.fs
        ∧ (Cache.set req res s).log = s.log ++ [skipMsg])
    ∧ (∀ p, (Cache.set req res s).fs p ≠ s.fs p → res.isSuccessful = true) := by
  constructor
  · intro h
    simp [Cache.set, h]
  · intro p hp
    cases h : res.isSuccessful with
    | true => rfl
    | false => simp [Cache.set, h] at hp

/-- C4 witness: a 500 response writes nothing and logs the skip; a 200
response does change the entry at the built path. -/
theorem c4_set_skips_witness :
    ((Cache.set sampleReq err500 emptyWorld).fs = emptyWorld.fs
      ∧ (Cache.set sampleReq err500 emptyWorld).log = emptyWorld.log ++ [skipMsg])
    ∧ ok200.isSuccessful = true :=
  ⟨(c4_set_skips_failures sampleReq err500 emptyWorld).1 rfl,
   (c4_set_skips_failures sampleReq ok200 emptyWorld).2
     (Cache.buildFilepath sampleReq)
     (by simp [Cache.set, ok200, ResponseInfo.isSuccessful, fsWrite, emptyWorld])⟩

/-- C8: a request event without the target-URL query parameter `u` receives
a status 404 empty-body response, triggers zero origin fetches, leaves the
world untouched, and ends the connection's loop without handling the
remaining events. -/
theorem c8_missing_param_404 (parseU : String → URL)
    (originFetch : RequestInfo → ResponseInfo) (e : InboundRequest)
    (rest : List InboundRequest) (s : World)
    (h : List.lookup "u" e.params = none) :
    serveHttp parseU originFetch (e :: rest) s =
      (([⟨.str "", .num 404, none⟩], none), s, 0) := by
  unfold serveHttp
  rw [h]

/-- C8 witness: an event whose query carries no `u` parameter. -/
theorem c8_missing_param_witness :
    serveHttp (fun _ => sampleURL) (fun _ => hitRes)
      [⟨[("x", "1")], "GET", [], ""⟩] emptyWorld =
      (([⟨.str "", .num 404, none⟩], none), emptyWorld, 0) :=
  c8_missing_param_404 (fun _ => sampleURL) (fun _ => hitRes)
    ⟨[("x", "1")], "GET", [], ""⟩ [] emptyWorld rfl

/-- C1: the `CachableRequest` wrapper is cache-aside — a cache hit is
returned immediately with zero origin invocations, and on a reported miss
the origin is invoked exactly once, its result is handed to `Cache.set` with
the request, and that result is returned whether or not it was successful. -/
theorem c1_cache_aside (originFetch : RequestInfo → ResponseInfo)
    (req : RequestInfo) (s : World) :
    (∀ r s₁, Cache.get req s = (.ok (some r), s₁) →
      CachableRequest originFetch req s =
        (.ok r, { s₁ with log := s₁.log ++ [hitMsg req] }, 0))
    ∧ (∀ s₁, Cache.get req s = (.ok none, s₁) →
      CachableRequest originFetch req s =
        (.ok (originFetch req),
         Cache.set req (originFetch req)
           { s₁ with log := s₁.log ++ [missMsg req] }, 1)) := by
  constructor
  · intro r s₁ h
    unfold CachableRequest
    rw [h]
  · intro s₁ h
    unfold CachableRequest
    rw [h]

/-- C1 witness: a hit world serves the stored response with zero origin
calls; an empty world fetches once and stores the result. -/
theorem c1_cache_aside_witness :
    CachableRequest (fun _ => ok200) sampleReq hitWorld =
      (.ok hitRes, { hitWorld with log := hitWorld.log ++ [hitMsg sampleReq] }, 0)
    ∧ CachableRequest (fun _ => ok200) sampleReq emptyWorld =
      (.ok ok200, Cache.set sampleReq ok200
        { emptyWorld with log := emptyWorld.log ++ [missMsg sampleReq] }, 1) :=
  ⟨(c1_cache_aside (fun _ => ok200) sampleReq hitWorld).1 hitRes hitWorld rfl,
   (c1_cache_aside (fun _ => ok200) sampleReq emptyWorld).2 emptyWorld rfl⟩

/-! Characterisation of `ResponseInfo.fromJSON` and further sample worlds. -/

/-- `fromJSON` succeeds on every value whose property accesses succeed, i.e.
on everything except `undefined` and `null`, copying whatever the three
property reads produce with no structural validation. -/
theorem fromJSON_ok (v : Js) (h1 : v ≠ .undefined) (h2 : v ≠ .null) :
    ResponseInfo.fromJSON v =
      .ok ⟨jsProp v "status", jsProp v "headers", jsProp v "data"⟩ := by
  cases v with
  | undefined => exact absurd rfl h1
  | null => exact absurd rfl h2
  | bool b => rfl
  | num n => rfl
  | str t => rfl
  | arr elems => rfl
  | obj fields => rfl

/-- `fromJSON` raises `Deserialize` on `undefined`. -/
theorem fromJSON_undefined :
    ResponseInfo.fromJSON .undefined = .error .deserialize := rfl

/-- `fromJSON` raises `Deserialize` on `null`. -/
theorem fromJSON_null : ResponseInfo.fromJSON .null = .error .deserialize := rfl

/-- `fromJSON` on a boolean: property access yields `undefined` everywhere. -/
theorem fromJSON_bool (b : Bool) :
    ResponseInfo.fromJSON (.bool b) = .ok ⟨.undefined, .undefined, .undefined⟩ := rfl

/-- `fromJSON` on a number: property access yields `undefined` everywhere. -/
theorem fromJSON_num (n : Int) :
    ResponseInfo.fromJSON (.num n) = .ok ⟨.undefined, .undefined, .undefined⟩ := rfl

/-- `fromJSON` on a string: property access yields `undefined` everywhere. -/
theorem fromJSON_str (t : String) :
    ResponseInfo.fromJSON (.str t) = .ok ⟨.undefined, .undefined, .undefined⟩ := rfl

/-- `fromJSON` on an array: property access yields `undefined` everywhere. -/
theorem fromJSON_arr (elems : List Js) :
    ResponseInfo.fromJSON (.arr elems) = .ok ⟨.undefined, .undefined, .undefined⟩ := rfl

/-- `fromJSON` on an object: the three fields are looked up, missing ones
read as `undefined`, with no validation. -/
theorem fromJSON_obj (fields : List (String × Js)) :
    ResponseInfo.fromJSON (.obj fields) =
      .ok ⟨jsProp (.obj fields) "status", jsProp (.obj fields) "headers",
        jsProp (.obj fields) "data"⟩ := rfl

/-- A world whose every path holds well-formed JSON whose `res` field is
present but structurally malformed (the number `5`). -/
def malformedResWorld : World :=
  ⟨fun _ => .file (.jsonText (.obj [("res", .num 5)])), [], 0⟩

/-- C2 counterexample: with arbitrary non-JSON bytes stored at the request's
path, `Cache.get` does not report absent — the `JSON.parse` `SyntaxError` is
neither `NotFound` nor `Deserialize`, so the catch rethrows it. -/
theorem c2_counterexample :
    (Cache.get sampleReq rawWorld).1 = .error .syntaxError
    ∧ (Cache.get sampleReq rawWorld).1 ≠ .ok none :=
  ⟨rfl, fun h => nomatch h⟩

/-- C2 amended: `Cache.get` reports absent exactly when the file is missing
or when the parsed JSON's `res` field is `undefined` or `null` (the only
`Deserialize` cases); everything else propagates — `PermissionDenied` as an
I/O fault, and non-JSON bytes as a `SyntaxError` rather than a miss. -/
theorem c2_get_absent_characterisation (req : RequestInfo) (s : World) :
    ((Cache.get req s).1 = .ok none ↔
      (s.fs (Cache.buildFilepath req) = .absent ∨
        ∃ v, s.fs (Cache.buildFilepath req) = .file (.jsonText v) ∧
          (jsGetProp v "res" = .ok .undefined ∨ jsGetProp v "res" = .ok .null)))
    ∧ (s.fs (Cache.buildFilepath req) = .denied →
        (Cache.get req s).1 = .error .permissionDenied)
    ∧ (∀ b, s.fs (Cache.buildFilepath req) = .file (.raw b) →
        (Cache.get req s).1 = .error .syntaxError) := by
  refine ⟨?_, fun h => by simp [Cache.get, readTextFile, h],
    fun b h => by simp [Cache.get, readTextFile, h]⟩
  cases hfs : s.fs (Cache.buildFilepath req) with
  | absent => simp [Cache.get, readTextFile, hfs]
  | denied => simp [Cache.get, readTextFile, hfs]
  | file d =>
    cases d with
    | raw b => simp [Cache.get, readTextFile, hfs]
    | jsonText v =>
      have hread : readTextFile s.fs (Cache.buildFilepath req) = .ok (.jsonText v) := by
        simp [readTextFile, hfs]
      cases hv : jsGetProp v "res" with
      | error e => simp [Cache.get, hread, hv, hfs]
      | ok rv =>
        have hget : (Cache.get req s).1 =
            (match ResponseInfo.fromJSON rv with
              | .error _ => Except.ok none
              | .ok d => .ok (some d)) := by
          unfold Cache.get
          dsimp only
          rw [hread]
          dsimp only
          rw [hv]
          dsimp only
          cases ResponseInfo.fromJSON rv <;> rfl
        rw [hget]
        cases rv <;>
          simp [hfs, hv, fromJSON_undefined, fromJSON_null, fromJSON_bool,
            fromJSON_num, fromJSON_str, fromJSON_arr, fromJSON_obj]

/-- C2 witness: a permission-denied path propagates the I/O fault, and raw
bytes propagate the parse error. -/
theorem c2_propagation_witness :
    (Cache.get sampleReq deniedWorld).1 = .error .permissionDenied
    ∧ (Cache.get sampleReq rawWorld).1 = .error .syntaxError :=
  ⟨(c2_get_absent_characterisation sampleReq deniedWorld).2.1 rfl,
   (c2_get_absent_characterisation sampleReq rawWorld).2.2 "garbage bytes" rfl⟩

/-- C9 counterexample: a file holding the well-formed JSON object with no
`res` field is not treated as a hit — property access on its `undefined`
`res` field makes `fromJSON` raise `Deserialize`, so `get` reports absent. -/
theorem c9_counterexample :
    (Cache.get sampleReq noResWorld).1 = .ok none
    ∧ ∀ r, (Cache.get sampleReq noResWorld).1 ≠ .ok (some r) :=
  ⟨rfl, fun _ h => nomatch h⟩

/-- C9 amended: `fromJSON` performs no structural validation — it succeeds
on every value whose property accesses succeed (everything but
`undefined`/`null`) — so `Cache.get` treats a well-formed JSON file as a hit
exactly when its `res` field is present and neither `null` nor `undefined`,
however malformed that field is; a missing or null `res` yields a miss. -/
theorem c9_fromJSON_no_validation (v : Js) (req : RequestInfo) (s : World) :
    (v ≠ .undefined → v ≠ .null →
      ResponseInfo.fromJSON v =
        .ok ⟨jsProp v "status", jsProp v "headers", jsProp v "data"⟩)
    ∧ (∀ pv rv, s.fs (Cache.buildFilepath req) = .file (.jsonText pv) →
        jsGetProp pv "res" = .ok rv → rv ≠ .undefined → rv ≠ .null →
        (Cache.get req s).1 =
          .ok (some ⟨jsProp rv "status", jsProp rv "headers", jsProp rv "data"⟩))
    ∧ (∀ pv rv, s.fs (Cache.buildFilepath req) = .file (.jsonText pv) →
        jsGetProp pv "res" = .ok rv → (rv = .undefined ∨ rv = .null) →
        (Cache.get req s).1 = .ok none) := by
  refine ⟨fromJSON_ok v, fun pv rv hfs hrv hu hn => ?_, fun pv rv hfs hrv hd => ?_⟩
  · simp [Cache.get, readTextFile, hfs, hrv, fromJSON_ok rv hu hn]
  · cases hd with
    | inl h => simp [Cache.get, readTextFile, hfs, hrv, h, fromJSON_undefined]
    | inr h => simp [Cache.get, readTextFile, hfs, hrv, h, fromJSON_null]

/-- C9 witness: the empty object deserialises to an all-`undefined`
descriptor, a numeric `res` field is served as a hit with a junk
descriptor, and a missing `res` field is a miss. -/
theorem c9_no_validation_witness :
    ResponseInfo.fromJSON (.obj []) = .ok ⟨.undefined, .undefined, .undefined⟩
    ∧ (Cache.get sampleReq malformedResWorld).1 =
        .ok (some ⟨.undefined, .undefined, .undefined⟩)
    ∧ (Cache.get sampleReq noResWorld).1 = .ok none :=
  ⟨(c9_fromJSON_no_validation (.obj []) sampleReq emptyWorld).1
      (fun h => nomatch h) (fun h => nomatch h),
   (c9_fromJSON_no_validation (.obj []) sampleReq malformedResWorld).2.1
      (.obj [("res", .num 5)]) (.num 5) rfl rfl
      (fun h => nomatch h) (fun h => nomatch h),
   (c9_fromJSON_no_validation (.obj []) sampleReq noResWorld).2.2
      (.obj [("date", .num 0)]) .undefined rfl rfl (.inl rfl)⟩

/-! Well-formed response descriptors and the stored-record round trip. -/

/-- Whether a JS value is a string. -/
def Js.isStr : Js → Bool
  | .str _ => true
  | _ => false

/-- A `ResponseInfo` whose fields have the types the TS class declares:
numeric status, string-valued header record, string body. Every descriptor
the system itself constructs (`fromResponse`) has this shape. -/
def ResponseInfo.wellformed (r : ResponseInfo) : Bool :=
  (match r.status with
    | .num _ => true
    | _ => false)
    && (match r.headers with
        | .obj fields => fields.all (fun kv => kv.2.isStr)
        | _ => false)
    && r.data.isStr

/-- A value passing the numeric test is a number. -/
theorem numShape (v : Js)
    (h : (match v with | Js.num _ => true | _ => false) = true) :
    ∃ n, v = .num n := by
  cases v <;> simp_all

/-- A value passing the string test is a string. -/
theorem strShape (v : Js) (h : v.isStr = true) : ∃ t, v = .str t := by
  cases v <;> simp_all [Js.isStr]

/-- A value passing the header-record test is an object of strings. -/
theorem objShape (v : Js)
    (h : (match v with
      | Js.obj fields => fields.all (fun kv => kv.2.isStr)
      | _ => false) = true) :
    ∃ fields, v = .obj fields ∧ fields.all (fun kv => kv.2.isStr) = true := by
  cases v <;> first
  | exact ⟨_, rfl, h⟩
  | simp_all

/-- `normFields` keeps a field list whose values are all strings as is. -/
theorem normFields_str (fields : List (String × Js))
    (h : fields.all (fun kv => kv.2.isStr) = true) :
    normFields fields = fields := by
  induction fields with
  | nil => rfl
  | cons kv rest ih =>
    obtain ⟨k, v⟩ := kv
    simp only [List.all_cons, Bool.and_eq_true] at h
    obtain ⟨h1, h2⟩ := h
    obtain ⟨t, ht⟩ := strShape v h1
    subst ht
    simp [normFields, stringifyNorm, Js.isUndef, ih h2]

/-- C5: `Cache.set` overwrites — after storing `res1` then `res2` for the
same request, `Cache.get` returns a descriptor equal to `res2` (same status,
headers and body), not `res1`. -/
theorem c5_set_overwrites (req : RequestInfo) (res1 res2 : ResponseInfo)
    (s : World) (h1 : res1.isSuccessful = true) (h2 : res2.isSuccessful = true)
    (hw : res2.wellformed = true) :
    (Cache.get req (Cache.set req res2 (Cache.set req res1 s))).1 =
      .ok (some res2) := by
  simp only [ResponseInfo.wellformed, Bool.and_eq_true] at hw
  obtain ⟨⟨hst, hhd⟩, hda⟩ := hw
  obtain ⟨n, hn⟩ := numShape _ hst
  obtain ⟨fields, hf, hall⟩ := objShape _ hhd
  obtain ⟨d, hd2⟩ := strShape _ hda
  obtain ⟨st, hdr, da⟩ := res2
  simp only at hn hf hd2
  subst hn hf hd2
  simp only [ResponseInfo.isSuccessful] at h2
  simp [Cache.set, Cache.get, ResponseInfo.isSuccessful, h2, readTextFile,
    fsWrite, stringifyNorm, normFields, Js.isUndef, RequestInfo.toJSON,
    ResponseInfo.toJSON, normFields_str fields hall, jsGetProp, lookupField,
    ResponseInfo.fromJSON]

/-- C5 witness: two successful responses stored for the sample request leave
exactly the second retrievable. -/
theorem c5_set_overwrites_witness :
    (Cache.get sampleReq
      (Cache.set sampleReq
        ⟨.num 200, .obj [("x", .str "y")], .str "second"⟩
        (Cache.set sampleReq ok200 emptyWorld))).1 =
      .ok (some ⟨.num 200, .obj [("x", .str "y")], .str "second"⟩) :=
  c5_set_overwrites sampleReq ok200
    ⟨.num 200, .obj [("x", .str "y")], .str "second"⟩ emptyWorld rfl rfl rfl

/-- C7: `set` and `get` share one storage path per request — `set` changes
no other path and `get` reads no other path — and that path is the fixed
relative cache root, then the URL host, then the fingerprint with a `.json`
extension; the fingerprint input is the serialized payload containing the
full URL (plus method and body, with an emptied headers slot). -/
theorem c7_storage_path (req : RequestInfo) (res : ResponseInfo) (s : World) :
    Cache.buildFilepath req =
      cacheRoot ++ "/" ++ req.url.host ++ "/" ++ (req.hash ++ ".json")
    ∧ (∀ p, p ≠ Cache.buildFilepath req → (Cache.set req res s).fs p = s.fs p)
    ∧ (∀ t : World, t.fs (Cache.buildFilepath req) = s.fs (Cache.buildFilepath req) →
        (Cache.get req t).1 = (Cache.get req s).1)
    ∧ req.hashInput =
        "\x7b\"url\":" ++ jsonQuote req.url.href ++ ",\"method\":" ++
          jsonQuote req.method ++ ",\"headers\":\x7b\x7d,\"body\":" ++
          jsonQuote req.body ++ "\x7d" := by
  refine ⟨rfl, fun p hp => ?_, fun t ht => ?_, rfl⟩
  · cases hsucc : res.isSuccessful with
    | false => simp [Cache.set, hsucc]
    | true => simp [Cache.set, hsucc, fsWrite, hp]
  · unfold Cache.get
    dsimp only
    rw [show readTextFile t.fs (Cache.buildFilepath req) =
        readTextFile s.fs (Cache.buildFilepath req) by simp [readTextFile, ht]]
    cases readTextFile s.fs (Cache.buildFilepath req) with
    | error e => cases e <;> rfl
    | ok fd =>
      cases fd with
      | raw b => rfl
      | jsonText v =>
        dsimp only
        cases jsGetProp v "res" with
        | error e => rfl
        | ok rv =>
          dsimp only
          cases ResponseInfo.fromJSON rv <;> rfl

/-- C7 witness: the path equation at the sample request, the frame property
at a foreign path, and `get`'s dependence on only the stored entry. -/
theorem c7_storage_path_witness :
    Cache.buildFilepath sampleReq =
      cacheRoot ++ "/" ++ sampleReq.url.host ++ "/" ++ (sampleReq.hash ++ ".json")
    ∧ (Cache.set sampleReq ok200 emptyWorld).fs "./other/path" =
        emptyWorld.fs "./other/path"
    ∧ (Cache.get sampleReq emptyWorld).1 = (Cache.get sampleReq emptyWorld).1 :=
  ⟨(c7_storage_path sampleReq ok200 emptyWorld).1,
   (c7_storage_path sampleReq ok200 emptyWorld).2.1 "./other/path" (by decide),
   (c7_storage_path sampleReq ok200 emptyWorld).2.2.1 emptyWorld rfl⟩

end Callandcache
